import Mathlib

/-!
Verification of the device-monitor subsystem of OP-1Z-Sample-Manager
(src/blueprints/device_monitor.py), shallowly embedded in Lean 4.

The embedding models: USB identifier normalization (`normalize_usb_id`),
mount-path resolution over an abstract file system (`find_device_mount`
and its per-platform scans), the status registry and its update operation
(`update_device_status`), the SSE broadcaster (`broadcast_sse_event`),
the background mount poller (`poll_step`), and the monitor's update call
sites as a step relation (`MonStep`).
-/

set_option maxHeartbeats 1000000

/-! ## Python value model for `normalize_usb_id`

`normalize_usb_id` receives an arbitrary Python object.  We model the
relevant universe: `None`, `int`, `str`, and representative non-supported
types (`float`, `bytes`, `list`) that hit the final `return None`.
A Python `ValueError` escaping the function is modelled by `Except.error`.
-/

inductive PyVal where
  | pyNone
  | pyInt (n : Int)
  | pyStr (s : String)
  | pyFloat
  | pyBytes
  | pyList
deriving DecidableEq

/-- Python `str.strip` whitespace set (ASCII subset). -/
def py_is_space (c : Char) : Bool :=
  c = ' ' || c = '\t' || c = '\n' || c = '\r' || c = '\x0b' || c = '\x0c'

/-- Python `str.strip()` on both ends. -/
def py_strip (s : String) : String :=
  String.mk (((s.data.dropWhile py_is_space).reverse.dropWhile py_is_space).reverse)

/-- Python `str.lower()` (ASCII subset, as used by USB id strings). -/
def py_lower (s : String) : String :=
  String.mk (s.data.map Char.toLower)

/-- Python `str.startswith(p)`. -/
def str_starts_with (s p : String) : Bool :=
  p.data.isPrefixOf s.data

/-- Hexadecimal digit value, both cases, as accepted by Python `int(s, 16)`. -/
def py_digit_val16 (c : Char) : Option Nat :=
  if '0' ≤ c ∧ c ≤ '9' then some (c.toNat - '0'.toNat)
  else if 'a' ≤ c ∧ c ≤ 'f' then some (c.toNat - 'a'.toNat + 10)
  else if 'A' ≤ c ∧ c ≤ 'F' then some (c.toNat - 'A'.toNat + 10)
  else none

/-- Decimal digit value as accepted by Python `int(s)`. -/
def py_digit_val10 (c : Char) : Option Nat :=
  if '0' ≤ c ∧ c ≤ '9' then some (c.toNat - '0'.toNat) else none

/-- Digits after the first one: Python allows a single `_` between digits. -/
def py_digits_rest (dv : Char → Option Nat) (base : Nat) :
    List Char → Nat → Option Nat
  | [], acc => some acc
  | '_' :: c :: rest, acc =>
    match dv c with
    | some d => py_digits_rest dv base rest (acc * base + d)
    | none => none
  | c :: rest, acc =>
    match dv c with
    | some d => py_digits_rest dv base rest (acc * base + d)
    | none => none

/-- A non-empty digit run (with optional internal underscores). -/
def py_digits (dv : Char → Option Nat) (base : Nat) : List Char → Option Nat
  | [] => none
  | c :: rest =>
    match dv c with
    | some d => py_digits_rest dv base rest d
    | none => none

/-- Body of a base-16 literal: optional `0x`/`0X` marker (an underscore may
directly follow the marker), then hex digits. -/
def py_hex_body (cs : List Char) : Option Nat :=
  match cs with
  | '0' :: x :: rest =>
    if x = 'x' ∨ x = 'X' then
      match rest with
      | '_' :: rest2 => py_digits py_digit_val16 16 rest2
      | _ => py_digits py_digit_val16 16 rest
    else py_digits py_digit_val16 16 cs
  | _ => py_digits py_digit_val16 16 cs

/-- Shared sign handling for Python `int(s, base)`. -/
def py_int_signed (body : List Char → Option Nat) (cs : List Char) : Option Int :=
  match cs with
  | '+' :: rest => (body rest).map Int.ofNat
  | '-' :: rest => (body rest).map (fun n => -(Int.ofNat n))
  | _ => (body cs).map Int.ofNat

/-- Python `int(s, 16)`: strip, optional sign, optional `0x` marker, hex digits. -/
def py_int_base16 (s : String) : Option Int :=
  py_int_signed py_hex_body (py_strip s).data

/-- Python `int(s)`: strip, optional sign, decimal digits. -/
def py_int_base10 (s : String) : Option Int :=
  py_int_signed (py_digits py_digit_val10 10) (py_strip s).data

/-- Embedding of `normalize_usb_id` (device_monitor.py, lines 45-79).

Note the `0x` branch calls `int(value, 16)` outside any `try`, so a parse
failure there raises `ValueError` (`Except.error`) instead of falling
through; every other parse attempt is wrapped in `try`/`except`. -/
def normalize_usb_id : PyVal → Except Unit (Option Int)
  | .pyNone => .ok none
  | .pyInt n => .ok (some n)
  | .pyStr s =>
    let value := py_lower (py_strip s)
    if value = "" then .ok none
    else if str_starts_with value "0x" then
      match py_int_base16 value with
      | some n => .ok (some n)
      | none => .error ()
    else if value.length = 4 then
      match py_int_base16 value with
      | some n => .ok (some n)
      | none =>
        match py_int_base10 value with
        | some n => .ok (some n)
        | none =>
          match py_int_base16 value with
          | some n => .ok (some n)
          | none => .ok none
    else
      match py_int_base10 value with
      | some n => .ok (some n)
      | none =>
        match py_int_base16 value with
        | some n => .ok (some n)
        | none => .ok none
  | .pyFloat => .ok none
  | .pyBytes => .ok none
  | .pyList => .ok none

/-- Modelled from the spec (§4.1), as amended: the resolution order
null → null; int → itself; string → trim+lowercase, then `0x`-prefixed hex
(a failure at this step raises), then bare hex if exactly 4 characters,
then decimal, then bare hex as a last resort, each remaining failure
falling through; total failure → null; other types → null. -/
def normalize_usb_id_spec : PyVal → Except Unit (Option Int)
  | .pyNone => .ok none
  | .pyInt n => .ok (some n)
  | .pyStr s =>
    let v := py_lower (py_strip s)
    if v = "" then .ok none
    else if str_starts_with v "0x" then
      match py_int_base16 v with
      | some n => .ok (some n)
      | none => .error ()
    else
      let attempts :=
        (if v.length = 4 then [py_int_base16 v] else []) ++
          [py_int_base10 v, py_int_base16 v]
      .ok (attempts.findSome? id)
  | _ => .ok none

example : normalize_usb_id (.pyStr "0x2367") = .ok (some 9063) := rfl
example : normalize_usb_id (.pyStr "2367") = .ok (some 9063) := rfl
example : normalize_usb_id (.pyStr "000c") = .ok (some 12) := rfl
example : normalize_usb_id (.pyInt 12) = .ok (some 12) := rfl
example : normalize_usb_id (.pyStr "not-a-number") = .ok none := rfl
example : normalize_usb_id (.pyStr "0xzz") = .error () := rfl

/-! ## Abstract file system and mount resolution

`find_device_mount` and its helpers query the host file system only
through `os.path.exists`, `os.path.isdir`, `os.listdir("/Volumes")` and
`os.path.join`.  We model the file system abstractly by those observations
and the host platform (`sys.platform`) as a parameter.
-/

/-- The two device kinds the monitor tracks (keys of `device_status`). -/
inductive Dev where
  | opz
  | op1
deriving DecidableEq, Fintype

/-- Host platform, as dispatched on by `sys.platform`. -/
inductive HostOS where
  | darwin
  | win32
  | otherOS
deriving DecidableEq

/-- Abstract file system: existence and directory tests plus the listing
of the fixed volumes directory. -/
structure FS where
  pathExists : String → Bool
  isDir : String → Bool
  volumes : List String

/-- Python `str.endswith(p)`. -/
def str_ends_with (s p : String) : Bool :=
  p.data.isSuffixOf s.data

/-- `os.path.join(a, b)` for the joins performed by the monitor (a relative
second component, platform separator). -/
def path_join (plat : HostOS) (a b : String) : String :=
  match plat with
  | .win32 => if str_ends_with a "\\" then a ++ b else a ++ "\\" ++ b
  | _ => if str_ends_with a "/" then a ++ b else a ++ "/" ++ b

/-- Constants from constants.py / devices.py. -/
def DIR_SAMPLEPACKS : String := "samplepacks"

def DIR_DRUM : String := "drum"

def DIR_SYNTH : String := "synth"

def OPZ_UPGRADE_MODE_MARKERS : List String := ["how_to_upgrade.txt", "systeminfo"]

def SAMPLE_CATEGORIES : List String :=
  ["1-kick", "2-snare", "3-perc", "4-fx", "5-bass", "6-lead", "7-arpeggio", "8-chord"]

/-- `Device.required_directories` from the catalog (devices.py). -/
def required_directories : Dev → List String
  | .opz => [DIR_SAMPLEPACKS]
  | .op1 => [DIR_DRUM, DIR_SYNTH]

/-- `Device.name` from the catalog (devices.py). -/
def device_name : Dev → String
  | .opz => "OP-Z"
  | .op1 => "OP-1"

/-- `Device.id` from the catalog (devices.py). -/
def device_id_string : Dev → String
  | .opz => "opz"
  | .op1 => "op1"

/-- Embedding of `validate_device_folder_structure` (device_monitor.py,
lines 98-147).  Python string falsiness of `mount_path` is the emptiness
test; returns the `(ok, error_message)` pair of the source. -/
def validate_device_folder_structure (plat : HostOS) (fs : FS) (device : Dev)
    (mount_path : String) : Bool × Option String :=
  if mount_path = "" then
    (false, some "Please connect your device and try again.")
  else if ¬ fs.pathExists mount_path then
    (false, some "mount path does not exist")
  else
    match device with
    | .op1 =>
      let drum_path := path_join plat mount_path DIR_DRUM
      let synth_path := path_join plat mount_path DIR_SYNTH
      if ¬ fs.pathExists drum_path ∨ ¬ fs.isDir drum_path then
        (false, some "Invalid OP-1 folder: drum directory not found.")
      else if ¬ fs.pathExists synth_path ∨ ¬ fs.isDir synth_path then
        (false, some "Invalid OP-1 folder: synth directory not found.")
      else (true, none)
    | .opz =>
      let samplepacks_path := path_join plat mount_path DIR_SAMPLEPACKS
      if ¬ fs.pathExists samplepacks_path then
        (false, some "Invalid OP-Z folder: samplepacks directory not found.")
      else if ¬ fs.isDir samplepacks_path then
        (false, some "Invalid OP-Z folder: samplepacks exists but is not a directory.")
      else
        let missing_categories := SAMPLE_CATEGORIES.filter
          (fun category => ¬ fs.pathExists (path_join plat samplepacks_path category))
        if missing_categories.length = SAMPLE_CATEGORIES.length then
          (false, some "Invalid OP-Z folder: No sample category folders found.")
        else (true, none)

/-- Embedding of `check_opz_upgrade_mode` (device_monitor.py, lines 150-168). -/
def check_opz_upgrade_mode (plat : HostOS) (fs : FS) (path : String) : Bool :=
  if path = "" ∨ ¬ fs.pathExists path then false
  else OPZ_UPGRADE_MODE_MARKERS.any
    (fun marker => fs.pathExists (path_join plat path marker))

/-- The `for volume in os.listdir(volumes_path)` loop of
`find_device_mount_macos`: first candidate that yields a result wins. -/
def scan_volumes_macos (fs : FS) (device : Dev) : List String → Option (String × String)
  | [] => none
  | volume :: rest =>
    let path := path_join .darwin "/Volumes" volume
    if fs.isDir path then
      if device = Dev.opz ∧ check_opz_upgrade_mode .darwin fs path then
        some (path, "upgrade")
      else if (validate_device_folder_structure .darwin fs device path).1 then
        some (path, "storage")
      else scan_volumes_macos fs device rest
    else scan_volumes_macos fs device rest

/-- Embedding of `find_device_mount_macos` (device_monitor.py, lines 171-191). -/
def find_device_mount_macos (fs : FS) (device : Dev) : Option String × Option String :=
  if ¬ fs.pathExists "/Volumes" then (none, none)
  else
    match scan_volumes_macos fs device fs.volumes with
    | some (path, mode) => (some path, some mode)
    | none => (none, none)

/-- `string.ascii_uppercase` as used by the Windows drive scan. -/
def ascii_uppercase : List Char := "ABCDEFGHIJKLMNOPQRSTUVWXYZ".data

/-- The drive-letter loop of `find_device_mount_windows`. -/
def scan_drives_windows (fs : FS) (device : Dev) : List Char → Option (String × String)
  | [] => none
  | letter :: rest =>
    let path := String.mk [letter] ++ ":\\"
    if fs.pathExists path then
      if device = Dev.opz ∧ check_opz_upgrade_mode .win32 fs path then
        some (path, "upgrade")
      else if (validate_device_folder_structure .win32 fs device path).1 then
        some (path, "storage")
      else scan_drives_windows fs device rest
    else scan_drives_windows fs device rest

/-- Embedding of `find_device_mount_windows` (device_monitor.py, lines 194-211). -/
def find_device_mount_windows (fs : FS) (device : Dev) : Option String × Option String :=
  match scan_drives_windows fs device ascii_uppercase with
  | some (path, mode) => (some path, some mode)
  | none => (none, none)

/-- Embedding of `find_device_mount` (device_monitor.py, lines 214-224). -/
def find_device_mount (plat : HostOS) (fs : FS) (device : Dev) :
    Option String × Option String :=
  match plat with
  | .darwin => find_device_mount_macos fs device
  | .win32 => find_device_mount_windows fs device
  | .otherOS => (none, none)

/-! ## Status registry, SSE broadcaster, configuration store

`device_status` is a dict with fixed keys `"opz"`/`"op1"`; each value holds
`connected`, `path`, `usb_detected`, `mode`.  `sse_clients` is a list of
queues; `queue.put` may raise on a closed queue, which
`broadcast_sse_event` catches per client.  The configuration store is a
string-keyed mutable map written through `set_config_setting`.
-/

/-- One entry of the `device_status` dict (device_monitor.py, lines 83-86). -/
structure DeviceStatus where
  connected : Bool
  path : Option String
  usb_detected : Bool
  mode : Option String
deriving DecidableEq

/-- The `device_status` dict with its two fixed keys. -/
structure StatusMap where
  opz : DeviceStatus
  op1 : DeviceStatus
deriving DecidableEq

def StatusMap.get (m : StatusMap) : Dev → DeviceStatus
  | .opz => m.opz
  | .op1 => m.op1

def StatusMap.set (m : StatusMap) : Dev → DeviceStatus → StatusMap
  | .opz, s => { m with opz := s }
  | .op1, s => { m with op1 := s }

/-- Python truthiness of an `Optional[str]` (`None` and `""` are falsy). -/
def opt_str_truthy : Option String → Bool
  | none => false
  | some s => s ≠ ""

/-- A subscriber queue: `closed` models a queue whose `put` raises. -/
structure Client where
  closed : Bool
  queue : List String
deriving DecidableEq

/-- `queue.put(message)`: raises on a closed queue. -/
def queue_put (q : Client) (message : String) : Except Unit Client :=
  if q.closed then .error ()
  else .ok { q with queue := q.queue ++ [message] }

/-- Payload of the `device_status` SSE event (device_monitor.py, lines 269-276). -/
structure EventData where
  device : String
  device_name : String
  connected : Bool
  path : Option String
  usb_detected : Bool
  mode : Option String
deriving DecidableEq

/-- JSON string escaping for the characters appearing in these payloads. -/
def json_escape (s : String) : String :=
  String.mk (s.data.foldr
    (fun c acc => if c = '"' ∨ c = '\\' then '\\' :: c :: acc else c :: acc) [])

def json_str (s : String) : String := "\"" ++ json_escape s ++ "\""

def json_bool (b : Bool) : String := if b then "true" else "false"

def json_opt_str : Option String → String
  | none => "null"
  | some s => json_str s

/-- `json.dumps({"type": event_type, **data})` for the fixed event shape,
with keys in insertion order. -/
def json_dumps_event (event_type : String) (data : EventData) : String :=
  "\x7b" ++ json_str "type" ++ ": " ++ json_str event_type ++
    ", " ++ json_str "device" ++ ": " ++ json_str data.device ++
    ", " ++ json_str "device_name" ++ ": " ++ json_str data.device_name ++
    ", " ++ json_str "connected" ++ ": " ++ json_bool data.connected ++
    ", " ++ json_str "path" ++ ": " ++ json_opt_str data.path ++
    ", " ++ json_str "usb_detected" ++ ": " ++ json_bool data.usb_detected ++
    ", " ++ json_str "mode" ++ ": " ++ json_opt_str data.mode ++ "\x7d"

/-- The `f"data: {event_data}\n\n"` SSE framing. -/
def sse_message (event_type : String) (data : EventData) : String :=
  "data: " ++ json_dumps_event event_type data ++ "\n\n"

/-- Embedding of `broadcast_sse_event` (device_monitor.py, lines 227-241):
the event is serialized once, then enqueued to every client; a `put` that
raises is swallowed, leaving that client unchanged. -/
def broadcast_sse_event (clients : List Client) (event_type : String)
    (data : EventData) : List Client :=
  let message := sse_message event_type data
  clients.map (fun q =>
    match queue_put q message with
    | .ok q2 => q2
    | .error _ => q)

/-- A configuration value (the store holds JSON scalars). -/
inductive CVal where
  | boolV (b : Bool)
  | strV (s : String)
  | intV (n : Int)
deriving DecidableEq

/-- The configuration store: a mutable string-keyed map, modelled as an
association list where `set` prepends and `get` takes the first match. -/
abbrev Config : Type := List (String × CVal)

def get_cfg (c : Config) (key : String) : Option CVal :=
  match c.find? (fun p => p.1 = key) with
  | some p => some p.2
  | none => none

def set_cfg (c : Config) (key : String) (value : CVal) : Config :=
  (key, value) :: c

/-- Python truthiness of a stored configuration value. -/
def cval_truthy : CVal → Bool
  | .boolV b => b
  | .strV s => s ≠ ""
  | .intV n => n ≠ 0

/-- Config keys from constants.py. -/
def CONFIG_DEVELOPER_MODE : String := "DEVELOPER_MODE"

def CONFIG_OPZ_DETECTED_PATH : String := "OPZ_DETECTED_PATH"

def CONFIG_OP1_DETECTED_PATH : String := "OP1_DETECTED_PATH"

/-- The per-device auto-detected-path key chosen by `update_device_status`. -/
def detected_path_key : Dev → String
  | .opz => CONFIG_OPZ_DETECTED_PATH
  | .op1 => CONFIG_OP1_DETECTED_PATH

/-- `get_config_setting(CONFIG_DEVELOPER_MODE, False)` followed by Python
truthiness: config.py special-cases `DEVELOPER_MODE` to `False` when the
key is absent, otherwise returns the stored value. -/
def developer_mode_truthy (c : Config) : Bool :=
  match get_cfg c CONFIG_DEVELOPER_MODE with
  | none => false
  | some v => cval_truthy v

/-- The mutable state touched by `update_device_status`: the status dict,
the SSE client queues, and the configuration store. -/
structure MonState where
  statuses : StatusMap
  clients : List Client
  config : Config
deriving DecidableEq

/-- Embedding of `update_device_status` (device_monitor.py, lines 244-285).

The new status replaces the stored one unconditionally; only when it
differs from the old one does the function broadcast an SSE event and
mirror the path into the configuration store (skipped entirely in
developer mode).  The returned boolean is the internal
`old_status != new_status` comparison. -/
def update_device_status (st : MonState) (device : Dev) (connected : Bool)
    (path : Option String) (usb_detected : Bool) (mode : Option String) :
    MonState × Bool :=
  let old_status := st.statuses.get device
  let new_status : DeviceStatus :=
    { connected := connected, path := path, usb_detected := usb_detected, mode := mode }
  let statuses2 := st.statuses.set device new_status
  if old_status ≠ new_status then
    let clients2 := broadcast_sse_event st.clients "device_status"
      { device := device_id_string device, device_name := device_name device,
        connected := connected, path := path,
        usb_detected := usb_detected, mode := mode }
    let config2 :=
      if ¬ developer_mode_truthy st.config then
        if connected ∧ opt_str_truthy path ∧ mode = some "storage" then
          set_cfg st.config (detected_path_key device) (.strV (path.getD ""))
        else if ¬ connected then
          set_cfg st.config (detected_path_key device) (.strV "")
        else st.config
      else st.config
    ({ statuses := statuses2, clients := clients2, config := config2 }, true)
  else
    ({ st with statuses := statuses2 }, false)

/-! ## The monitor's update call sites and the poller

`MonStep` enumerates every call of `update_device_status` the monitor
performs, with each call site's arguments and the guard conditions under
which the source reaches it: the startup scan (`scan_for_connected_devices`),
the connect callback (`on_usb_connect`), the disconnect callback
(`on_usb_disconnect`), and the poll loop body (`poll_for_mount_path`).
-/

inductive MonStep (plat : HostOS) (fs : FS) : MonState → MonState → Prop
  | scan_found (st : MonState) (d : Dev) (p m : String) :
      find_device_mount plat fs d = (some p, some m) →
      MonStep plat fs st (update_device_status st d true (some p) true (some m)).1
  | scan_usb_other (st : MonState) (d : Dev) :
      MonStep plat fs st (update_device_status st d true none true (some "other")).1
  | scan_usb_standby (st : MonState) :
      MonStep plat fs st (update_device_status st .opz true none true (some "standby")).1
  | connect_found (st : MonState) (d : Dev) (p m : String) :
      find_device_mount plat fs d = (some p, some m) →
      MonStep plat fs st (update_device_status st d true (some p) true (some m)).1
  | connect_standby (st : MonState) :
      find_device_mount plat fs .opz = (none, none) →
      MonStep plat fs st (update_device_status st .opz true none true (some "standby")).1
  | connect_no_mount_op1 (st : MonState) :
      find_device_mount plat fs .op1 = (none, none) →
      MonStep plat fs st (update_device_status st .op1 true none true (some "storage")).1
  | connect_other (st : MonState) (d : Dev) :
      MonStep plat fs st (update_device_status st d true none true (some "other")).1
  | disconnect (st : MonState) (d : Dev) :
      MonStep plat fs st (update_device_status st d false none false none).1
  | poll_found (st : MonState) (d : Dev) (p : String) (m : Option String) :
      (st.statuses.get d).connected = true →
      (st.statuses.get d).path = none →
      find_device_mount plat fs d = (some p, m) →
      MonStep plat fs st (update_device_status st d true (some p) true m).1

/-- The spec's DeviceStatus invariant, both directions (§3): `path` is
non-empty if and only if `mode` is `storage` or `upgrade`. -/
def status_invariant_iff (s : DeviceStatus) : Prop :=
  opt_str_truthy s.path = true ↔ (s.mode = some "storage" ∨ s.mode = some "upgrade")

/-- The direction of the invariant the code actually maintains: a
non-empty `path` implies mode `storage` or `upgrade`. -/
def status_invariant_fwd (s : DeviceStatus) : Prop :=
  opt_str_truthy s.path = true → (s.mode = some "storage" ∨ s.mode = some "upgrade")

def mon_invariant_iff (st : MonState) : Prop :=
  ∀ d : Dev, status_invariant_iff (st.statuses.get d)

def mon_invariant_fwd (st : MonState) : Prop :=
  ∀ d : Dev, status_invariant_fwd (st.statuses.get d)

instance (s : DeviceStatus) : Decidable (status_invariant_iff s) := by
  unfold status_invariant_iff; infer_instance

instance (s : DeviceStatus) : Decidable (status_invariant_fwd s) := by
  unfold status_invariant_fwd; infer_instance

instance (st : MonState) : Decidable (mon_invariant_iff st) := by
  unfold mon_invariant_iff; infer_instance

instance (st : MonState) : Decidable (mon_invariant_fwd st) := by
  unfold mon_invariant_fwd; infer_instance

/-- Control point of the poll loop body (`poll_for_mount_path.poll`):
at the top of the iteration (about to re-check shared status under the
lock), about to call `find_device_mount`, sleeping between attempts, or
returned. -/
inductive PollPhase where
  | checking (attempt : Nat)
  | finding (attempt : Nat)
  | sleeping (attempt : Nat)
  | stopped
deriving DecidableEq

/-- Small-step execution of the poll loop of `poll_for_mount_path`
(device_monitor.py, lines 412-440), exposing the sleep as its own phase so
that events interleaved mid-interval can be modelled. -/
def poll_step (plat : HostOS) (fs : FS) (d : Dev) (max_attempts : Nat) :
    MonState × PollPhase → MonState × PollPhase
  | (st, .checking attempt) =>
    let status := st.statuses.get d
    if status.connected = false ∨ status.path ≠ none then (st, .stopped)
    else (st, .finding attempt)
  | (st, .finding attempt) =>
    match find_device_mount plat fs d with
    | (some mount_path, detected_mode) =>
      ((update_device_status st d true (some mount_path) true detected_mode).1, .stopped)
    | (none, _) => (st, .sleeping attempt)
  | (st, .sleeping attempt) =>
    if attempt + 1 < max_attempts then (st, .checking (attempt + 1))
    else (st, .stopped)
  | (st, .stopped) => (st, .stopped)

/-! ## Helper lemmas -/

theorem StatusMap.get_set_same (m : StatusMap) (d : Dev) (s : DeviceStatus) :
    (m.set d s).get d = s := by
  cases d <;> rfl

theorem StatusMap.get_set_other (m : StatusMap) (d d' : Dev) (s : DeviceStatus)
    (h : d ≠ d') : (m.set d s).get d' = m.get d' := by
  cases d <;> cases d' <;> first | rfl | exact absurd rfl h

theorem StatusMap.set_get_self (m : StatusMap) (d : Dev) :
    m.set d (m.get d) = m := by
  cases d <;> rfl

theorem update_statuses_eq (st : MonState) (d : Dev) (c : Bool) (p : Option String)
    (u : Bool) (m : Option String) :
    (update_device_status st d c p u m).1.statuses =
      st.statuses.set d { connected := c, path := p, usb_detected := u, mode := m } := by
  by_cases h : st.statuses.get d = { connected := c, path := p, usb_detected := u, mode := m } <;>
    simp [update_device_status, h]

theorem update_device_status_noop (st : MonState) (d : Dev) (c : Bool) (p : Option String)
    (u : Bool) (m : Option String)
    (h : st.statuses.get d = { connected := c, path := p, usb_detected := u, mode := m }) :
    update_device_status st d c p u m = (st, false) := by
  unfold update_device_status
  rw [if_neg (by simp [h])]
  rw [← h, StatusMap.set_get_self]

theorem volumes_path_ne_empty (v : String) : path_join .darwin "/Volumes" v ≠ "" := by
  have h1 : path_join .darwin "/Volumes" v = "/Volumes" ++ "/" ++ v := rfl
  rw [h1]
  intro h
  have h3 : (("/Volumes" ++ "/" : String).data) ++ v.data = ([] : List Char) := by
    rw [← String.data_append]
    exact congrArg String.data h
  have h4 : ("/Volumes" ++ "/" : String).data = [] := (List.append_eq_nil.mp h3).1
  exact absurd h4 (by decide)

theorem drive_path_ne_empty (letter : Char) : String.mk [letter] ++ ":\\" ≠ "" := by
  intro h
  have h3 : (String.mk [letter]).data ++ (":\\" : String).data = ([] : List Char) := by
    rw [← String.data_append]
    exact congrArg String.data h
  simp at h3

theorem scan_volumes_macos_modes (fs : FS) (d : Dev) (l : List String) (p m : String)
    (h : scan_volumes_macos fs d l = some (p, m)) :
    (m = "storage" ∨ m = "upgrade") ∧ p ≠ "" := by
  induction l with
  | nil => exact absurd h (by simp [scan_volumes_macos])
  | cons v rest ih =>
    rw [scan_volumes_macos] at h
    split at h
    · split at h
      · cases h
        exact ⟨Or.inr rfl, volumes_path_ne_empty v⟩
      · split at h
        · cases h
          exact ⟨Or.inl rfl, volumes_path_ne_empty v⟩
        · exact ih h
    · exact ih h

theorem scan_drives_windows_modes (fs : FS) (d : Dev) (l : List Char) (p m : String)
    (h : scan_drives_windows fs d l = some (p, m)) :
    (m = "storage" ∨ m = "upgrade") ∧ p ≠ "" := by
  induction l with
  | nil => exact absurd h (by simp [scan_drives_windows])
  | cons letter rest ih =>
    rw [scan_drives_windows] at h
    split at h
    · split at h
      · cases h
        exact ⟨Or.inr rfl, drive_path_ne_empty letter⟩
      · split at h
        · cases h
          exact ⟨Or.inl rfl, drive_path_ne_empty letter⟩
        · exact ih h
    · exact ih h

/-- Whenever `find_device_mount` reports a path, the path is non-empty and
the reported mode is `storage` or `upgrade`. -/
theorem find_device_mount_some (plat : HostOS) (fs : FS) (d : Dev) (p : String)
    (m : Option String) (h : find_device_mount plat fs d = (some p, m)) :
    (m = some "storage" ∨ m = some "upgrade") ∧ p ≠ "" := by
  cases plat with
  | darwin =>
    simp only [find_device_mount] at h
    unfold find_device_mount_macos at h
    by_cases hvol : fs.pathExists "/Volumes" = true
    · rw [if_neg (by simp [hvol])] at h
      cases hscan : scan_volumes_macos fs d fs.volumes with
      | none =>
        rw [hscan] at h
        exact absurd h (by simp)
      | some pr =>
        obtain ⟨path, mode⟩ := pr
        rw [hscan] at h
        have h2 : ((some path : Option String), (some mode : Option String)) = (some p, m) := h
        rw [Prod.mk.injEq] at h2
        obtain ⟨h3, h4⟩ := h2
        have h5 : path = p := by injection h3
        subst h5
        have h6 := scan_volumes_macos_modes fs d fs.volumes path mode hscan
        refine ⟨?_, h6.2⟩
        rcases h6.1 with h7 | h7
        · exact Or.inl (by rw [← h4, h7])
        · exact Or.inr (by rw [← h4, h7])
    · rw [if_pos (by simpa using hvol)] at h
      exact absurd h (by simp)
  | win32 =>
    simp only [find_device_mount] at h
    unfold find_device_mount_windows at h
    cases hscan : scan_drives_windows fs d ascii_uppercase with
    | none =>
      rw [hscan] at h
      exact absurd h (by simp)
    | some pr =>
      obtain ⟨path, mode⟩ := pr
      rw [hscan] at h
      have h2 : ((some path : Option String), (some mode : Option String)) = (some p, m) := h
      rw [Prod.mk.injEq] at h2
      obtain ⟨h3, h4⟩ := h2
      have h5 : path = p := by injection h3
      subst h5
      have h6 := scan_drives_windows_modes fs d ascii_uppercase path mode hscan
      refine ⟨?_, h6.2⟩
      rcases h6.1 with h7 | h7
      · exact Or.inl (by rw [← h4, h7])
      · exact Or.inr (by rw [← h4, h7])
  | otherOS =>
    exact absurd h (by simp [find_device_mount])

/-- Structural hypotheses on a candidate root imply that
`validate_device_folder_structure` accepts it: the root exists and is
non-empty, every required directory exists and is a directory, and (for
the OP-Z) at least one sample category folder is present. -/
theorem validate_of_structure (plat : HostOS) (fs : FS) (d : Dev) (root : String)
    (hne : root ≠ "")
    (hex : fs.pathExists root = true)
    (hreq : ∀ r ∈ required_directories d,
        fs.pathExists (path_join plat root r) = true ∧
        fs.isDir (path_join plat root r) = true)
    (hcat : d = Dev.opz → ∃ c ∈ SAMPLE_CATEGORIES,
        fs.pathExists (path_join plat (path_join plat root DIR_SAMPLEPACKS) c) = true) :
    (validate_device_folder_structure plat fs d root).1 = true := by
  cases d with
  | op1 =>
    have hdrum := hreq DIR_DRUM (by simp [required_directories])
    have hsynth := hreq DIR_SYNTH (by simp [required_directories])
    simp [validate_device_folder_structure, hne, hex, hdrum.1, hdrum.2, hsynth.1, hsynth.2]
  | opz =>
    have hsp := hreq DIR_SAMPLEPACKS (by simp [required_directories])
    obtain ⟨c, hc_mem, hc_ex⟩ := hcat rfl
    have hnot : ¬ (∀ a ∈ SAMPLE_CATEGORIES,
        fs.pathExists (path_join plat (path_join plat root DIR_SAMPLEPACKS) a) = false) := by
      intro hall
      have h2 := hall c hc_mem
      rw [hc_ex] at h2
      cases h2
    simp [validate_device_folder_structure, hne, hex, hsp.1, hsp.2, hnot]

/-- The volume scan examines candidates in order: a prefix that yields
nothing is skipped. -/
theorem scan_volumes_macos_append_none (fs : FS) (d : Dev) (l1 l2 : List String)
    (h : scan_volumes_macos fs d l1 = none) :
    scan_volumes_macos fs d (l1 ++ l2) = scan_volumes_macos fs d l2 := by
  induction l1 with
  | nil => rfl
  | cons v rest ih =>
    rw [scan_volumes_macos] at h
    rw [List.cons_append, scan_volumes_macos]
    split at h
    · split at h
      · exact absurd h (by simp)
      · split at h
        · exact absurd h (by simp)
        · rename_i h1 h2 h3
          rw [if_pos h1, if_neg h2, if_neg h3]
          exact ih h
    · rename_i h1
      rw [if_neg h1]
      exact ih h

/-! ## Claim theorems: mount resolution (C2, C3) -/

/-- C2 (amended): for any device kind and any candidate volume whose root
is a directory, exists, contains all of the kind's `requiredDirectories`
as directories and — for the OP-Z, whose layout has category
subdirectories — at least one expected category folder, and carries no
upgrade-mode marker, `findMount` returns that root with mode `"storage"`,
provided no earlier candidate in enumeration order yields a result. -/
theorem find_mount_returns_storage_for_valid_root (fs : FS) (d : Dev)
    (pre post : List String) (v : String)
    (hvols : fs.volumes = pre ++ v :: post)
    (hroot : fs.pathExists "/Volumes" = true)
    (hpre : scan_volumes_macos fs d pre = none)
    (hdir : fs.isDir (path_join .darwin "/Volumes" v) = true)
    (hex : fs.pathExists (path_join .darwin "/Volumes" v) = true)
    (hreq : ∀ r ∈ required_directories d,
        fs.pathExists (path_join .darwin (path_join .darwin "/Volumes" v) r) = true ∧
        fs.isDir (path_join .darwin (path_join .darwin "/Volumes" v) r) = true)
    (hcat : d = Dev.opz → ∃ c ∈ SAMPLE_CATEGORIES,
        fs.pathExists (path_join .darwin
          (path_join .darwin (path_join .darwin "/Volumes" v) DIR_SAMPLEPACKS) c) = true)
    (hupg : check_opz_upgrade_mode .darwin fs (path_join .darwin "/Volumes" v) = false) :
    find_device_mount_macos fs d =
      (some (path_join .darwin "/Volumes" v), some "storage") := by
  have hvalid := validate_of_structure .darwin fs d (path_join .darwin "/Volumes" v)
    (volumes_path_ne_empty v) hex hreq hcat
  unfold find_device_mount_macos
  rw [if_neg (by simp [hroot]), hvols, scan_volumes_macos_append_none fs d pre _ hpre]
  rw [scan_volumes_macos]
  rw [if_pos (by simp [hdir])]
  rw [if_neg (by simp [hupg])]
  rw [if_pos (by simp [hvalid])]

/-- C3: if a candidate OP-Z root carries an upgrade-mode marker — even if
it simultaneously passes full structural validation — `findMount` returns
that root with mode `"upgrade"`: the marker check precedes structural
validation (again provided no earlier candidate yields a result). -/
theorem find_mount_upgrade_marker_precedes_validation (fs : FS)
    (pre post : List String) (v : String)
    (hvols : fs.volumes = pre ++ v :: post)
    (hroot : fs.pathExists "/Volumes" = true)
    (hpre : scan_volumes_macos fs .opz pre = none)
    (hdir : fs.isDir (path_join .darwin "/Volumes" v) = true)
    (hex : fs.pathExists (path_join .darwin "/Volumes" v) = true)
    (hmarker : ∃ marker ∈ OPZ_UPGRADE_MODE_MARKERS,
        fs.pathExists (path_join .darwin (path_join .darwin "/Volumes" v) marker) = true)
    (hvalid : (validate_device_folder_structure .darwin fs .opz
        (path_join .darwin "/Volumes" v)).1 = true) :
    find_device_mount_macos fs .opz =
      (some (path_join .darwin "/Volumes" v), some "upgrade") := by
  have hupg : check_opz_upgrade_mode .darwin fs (path_join .darwin "/Volumes" v) = true := by
    obtain ⟨marker, hmem, hmex⟩ := hmarker
    unfold check_opz_upgrade_mode
    rw [if_neg (by simp [volumes_path_ne_empty v, hex])]
    rw [List.any_eq_true]
    exact ⟨marker, hmem, hmex⟩
  unfold find_device_mount_macos
  rw [if_neg (by simp [hroot]), hvols, scan_volumes_macos_append_none fs .opz pre _ hpre]
  rw [scan_volumes_macos]
  rw [if_pos (by simp [hdir])]
  rw [if_pos ⟨rfl, by simp [hupg]⟩]

/-- Witness file system: one volume `OPZ` with a valid OP-Z storage layout
(samplepacks plus one category folder) and no upgrade markers. -/
def fs_valid_opz : FS :=
  { pathExists := fun s => (["/Volumes", "/Volumes/OPZ", "/Volumes/OPZ/samplepacks",
      "/Volumes/OPZ/samplepacks/1-kick"] : List String).contains s
  , isDir := fun s => (["/Volumes", "/Volumes/OPZ", "/Volumes/OPZ/samplepacks",
      "/Volumes/OPZ/samplepacks/1-kick"] : List String).contains s
  , volumes := ["OPZ"] }

/-- C2 witness. -/
theorem find_mount_returns_storage_for_valid_root_witness :
    find_device_mount_macos fs_valid_opz .opz = (some "/Volumes/OPZ", some "storage") := by
  exact find_mount_returns_storage_for_valid_root fs_valid_opz .opz [] [] "OPZ"
    rfl (by decide) rfl (by decide) (by decide) (by decide) (by decide) (by decide)

/-- File system refuting C2 as literally stated: the root exists, is a
directory and contains every directory in the OP-Z's
`requiredDirectories` (namely `samplepacks`), carries no upgrade marker,
yet `findMount` rejects it because no sample category folder exists. -/
def fs_empty_samplepacks : FS :=
  { pathExists := fun s => (["/Volumes", "/Volumes/OPZ",
      "/Volumes/OPZ/samplepacks"] : List String).contains s
  , isDir := fun s => (["/Volumes", "/Volumes/OPZ",
      "/Volumes/OPZ/samplepacks"] : List String).contains s
  , volumes := ["OPZ"] }

/-- C2 counterexample: a candidate root that exists and contains all of
the OP-Z's `requiredDirectories` (and no upgrade marker), on which
`findMount` does not return `(root, "storage")` — it finds nothing,
because every category folder is absent. -/
theorem find_mount_valid_root_counterexample :
    fs_empty_samplepacks.pathExists "/Volumes/OPZ" = true ∧
    fs_empty_samplepacks.isDir "/Volumes/OPZ" = true ∧
    (∀ r ∈ required_directories .opz,
      fs_empty_samplepacks.pathExists (path_join .darwin "/Volumes/OPZ" r) = true ∧
      fs_empty_samplepacks.isDir (path_join .darwin "/Volumes/OPZ" r) = true) ∧
    check_opz_upgrade_mode .darwin fs_empty_samplepacks "/Volumes/OPZ" = false ∧
    find_device_mount_macos fs_empty_samplepacks .opz ≠
      (some "/Volumes/OPZ", some "storage") := by
  refine ⟨rfl, rfl, by decide, rfl, by decide⟩

/-- Witness file system for C3: one volume `OPZ` carrying an upgrade
marker and, simultaneously, a fully valid storage layout. -/
def fs_upgrade_and_valid : FS :=
  { pathExists := fun s => (["/Volumes", "/Volumes/OPZ", "/Volumes/OPZ/samplepacks",
      "/Volumes/OPZ/samplepacks/1-kick", "/Volumes/OPZ/how_to_upgrade.txt"] : List String).contains s
  , isDir := fun s => (["/Volumes", "/Volumes/OPZ",
      "/Volumes/OPZ/samplepacks", "/Volumes/OPZ/samplepacks/1-kick"] : List String).contains s
  , volumes := ["OPZ"] }

/-- C3 witness. -/
theorem find_mount_upgrade_marker_precedes_validation_witness :
    find_device_mount_macos fs_upgrade_and_valid .opz =
      (some "/Volumes/OPZ", some "upgrade") := by
  exact find_mount_upgrade_marker_precedes_validation fs_upgrade_and_valid [] [] "OPZ"
    rfl (by decide) rfl (by decide) (by decide) (by decide) (by decide)

/-! ## Claim theorems: identifier normalization (C4, C9) -/

/-- C4 (amended): `normalize_usb_id` follows the spec's resolution order
with one amendment — a parse failure at the `0x`-prefixed-hex step raises
`ValueError` instead of falling through — and maps `"0x2367"` to 9063,
`"2367"` to 9063, `"000c"` to 12, the integer 12 to 12, and
`"not-a-number"` to null. -/
theorem normalize_usb_id_follows_amended_order :
    (∀ v : PyVal, normalize_usb_id v = normalize_usb_id_spec v) ∧
    normalize_usb_id (.pyStr "0x2367") = .ok (some 9063) ∧
    normalize_usb_id (.pyStr "2367") = .ok (some 9063) ∧
    normalize_usb_id (.pyStr "000c") = .ok (some 12) ∧
    normalize_usb_id (.pyInt 12) = .ok (some 12) ∧
    normalize_usb_id (.pyStr "not-a-number") = .ok none := by
  refine ⟨?_, rfl, rfl, rfl, rfl, rfl⟩
  intro v
  cases v with
  | pyNone => rfl
  | pyInt n => rfl
  | pyFloat => rfl
  | pyBytes => rfl
  | pyList => rfl
  | pyStr s =>
    simp only [normalize_usb_id, normalize_usb_id_spec]
    by_cases h0 : py_lower (py_strip s) = ""
    · simp [h0]
    · by_cases h1 : str_starts_with (py_lower (py_strip s)) "0x" = true
      · simp [h0, h1]
      · by_cases h4 : (py_lower (py_strip s)).length = 4
        · cases h16 : py_int_base16 (py_lower (py_strip s)) with
          | some n => simp [h0, h1, h4, h16, List.findSome?]
          | none =>
            cases h10 : py_int_base10 (py_lower (py_strip s)) with
            | some n => simp [h0, h1, h4, h16, h10, List.findSome?]
            | none => simp [h0, h1, h4, h16, h10, List.findSome?]
        · cases h10 : py_int_base10 (py_lower (py_strip s)) with
          | some n => simp [h0, h1, h4, h10, List.findSome?]
          | none =>
            cases h16 : py_int_base16 (py_lower (py_strip s)) with
            | some n => simp [h0, h1, h4, h10, h16, List.findSome?]
            | none => simp [h0, h1, h4, h10, h16, List.findSome?]

/-- C4 counterexample: on `"0xzz"` every parse step fails, so the claimed
resolution order requires the result null; the code instead raises an
uncaught `ValueError` from the `0x` branch. -/
theorem normalize_usb_id_raises_counterexample :
    normalize_usb_id (.pyStr "0xzz") = .error () ∧
    normalize_usb_id (.pyStr "0xzz") ≠ .ok none :=
  ⟨rfl, fun h => Except.noConfusion h⟩

/-- C9: for every input value that is neither null, an integer, nor a
string, `normalize_usb_id` returns null without raising. -/
theorem normalize_usb_id_total_on_other_types (v : PyVal)
    (h0 : v ≠ .pyNone) (h1 : ∀ n, v ≠ .pyInt n) (h2 : ∀ s, v ≠ .pyStr s) :
    normalize_usb_id v = .ok none := by
  cases v with
  | pyNone => exact absurd rfl h0
  | pyInt n => exact absurd rfl (h1 n)
  | pyStr s => exact absurd rfl (h2 s)
  | pyFloat => rfl
  | pyBytes => rfl
  | pyList => rfl

/-- C9 witness: a float input. -/
theorem normalize_usb_id_total_on_other_types_witness :
    normalize_usb_id .pyFloat = .ok none :=
  normalize_usb_id_total_on_other_types .pyFloat
    (fun h => PyVal.noConfusion h)
    (fun n h => PyVal.noConfusion h)
    (fun s h => PyVal.noConfusion h)

/-! ## Claim theorems: status registry and broadcaster (C5, C7, C10, C8) -/

/-- C5: applying the registry update twice with identical arguments
reports `changed = false` on the second call, and the second call is a
complete no-op on the state — the stored status, the subscriber queues
(no broadcast) and the configuration store are all unchanged. -/
theorem update_device_status_idempotent (st : MonState) (d : Dev) (connected : Bool)
    (path : Option String) (usb_detected : Bool) (mode : Option String) :
    update_device_status (update_device_status st d connected path usb_detected mode).1
        d connected path usb_detected mode =
      ((update_device_status st d connected path usb_detected mode).1, false) := by
  apply update_device_status_noop
  rw [update_statuses_eq, StatusMap.get_set_same]

/-- C7: with the developer-mode flag set (truthy) in the configuration
store, a status update in which auto-detection resolved a storage mount
path leaves the configuration store — in particular the per-device
auto-detected-path key — completely unmodified. -/
theorem developer_mode_keeps_config_unmodified (st : MonState) (d : Dev)
    (p : String) (usb_detected : Bool)
    (hdev : developer_mode_truthy st.config = true) :
    ((update_device_status st d true (some p) usb_detected (some "storage")).1).config =
      st.config := by
  by_cases hch : st.statuses.get d =
      { connected := true, path := some p, usb_detected := usb_detected, mode := some "storage" }
  · rw [update_device_status_noop st d true (some p) usb_detected (some "storage") hch]
  · unfold update_device_status
    rw [if_pos hch]
    simp [hdev]

/-- C7 witness state: developer mode on. -/
def status_disconnected : DeviceStatus :=
  { connected := false, path := none, usb_detected := false, mode := none }

def st_dev_mode : MonState :=
  { statuses := { opz := status_disconnected, op1 := status_disconnected }
  , clients := []
  , config := [(CONFIG_DEVELOPER_MODE, CVal.boolV true)] }

/-- C7 witness. -/
theorem developer_mode_keeps_config_unmodified_witness :
    ((update_device_status st_dev_mode .opz true (some "/Volumes/OPZ") true
        (some "storage")).1).config = st_dev_mode.config :=
  developer_mode_keeps_config_unmodified st_dev_mode .opz "/Volumes/OPZ" true rfl

/-- C10: on a status change to disconnected with developer mode off
(falsy), the monitor writes the empty string to that kind's
auto-detected-path configuration key. -/
theorem disconnect_clears_detected_path (st : MonState) (d : Dev)
    (path : Option String) (usb_detected : Bool) (mode : Option String)
    (hdev : developer_mode_truthy st.config = false)
    (hchanged : st.statuses.get d ≠
      { connected := false, path := path, usb_detected := usb_detected, mode := mode }) :
    get_cfg ((update_device_status st d false path usb_detected mode).1).config
        (detected_path_key d) = some (.strV "") := by
  unfold update_device_status
  rw [if_pos hchanged]
  simp [hdev, get_cfg, set_cfg]

/-- C10 witness state: OP-1 currently connected in storage mode,
developer mode off. -/
def status_op1_storage : DeviceStatus :=
  { connected := true, path := some "/Volumes/OP1", usb_detected := true
  , mode := some "storage" }

def st_op1_connected : MonState :=
  { statuses := { opz := status_disconnected, op1 := status_op1_storage }
  , clients := []
  , config := [] }

/-- C10 witness. -/
theorem disconnect_clears_detected_path_witness :
    get_cfg ((update_device_status st_op1_connected .op1 false none false none).1).config
        (detected_path_key .op1) = some (.strV "") :=
  disconnect_clears_detected_path st_op1_connected .op1 none false none rfl (by decide)

/-- C8: `publish` serializes the event once and enqueues that message to
every currently-registered subscriber whose queue is open; a subscriber
whose queue is closed (whose `put` raises) is left unchanged and does not
prevent delivery to the others; the broadcast itself never raises. -/
theorem broadcast_delivers_to_every_open_subscriber (clients : List Client)
    (event_type : String) (data : EventData) :
    List.Forall₂ (fun c c2 =>
        (c.closed = true → c2 = c) ∧
        (c.closed = false →
          c2 = { c with queue := c.queue ++ [sse_message event_type data] }))
      clients (broadcast_sse_event clients event_type data) := by
  induction clients with
  | nil => exact List.Forall₂.nil
  | cons c rest ih =>
    refine List.Forall₂.cons ?_ ih
    cases hc : c.closed with
    | true =>
      constructor
      · intro _
        simp [queue_put, hc]
      · intro hfalse
        cases hfalse
    | false =>
      constructor
      · intro htrue
        cases htrue
      · intro _
        simp [queue_put, hc]

/-- C8 witness: one closed and one open subscriber; the open one still
receives the message, the closed one is untouched. -/
theorem broadcast_delivers_to_every_open_subscriber_witness :
    List.Forall₂ (fun c c2 =>
        (c.closed = true → c2 = c) ∧
        (c.closed = false →
          c2 = { c with queue := c.queue ++ [sse_message "device_status"
            { device := "opz", device_name := "OP-Z", connected := false, path := none
            , usb_detected := false, mode := none }] }))
      [{ closed := true, queue := [] }, { closed := false, queue := [] }]
      (broadcast_sse_event
        [{ closed := true, queue := [] }, { closed := false, queue := [] }]
        "device_status"
        { device := "opz", device_name := "OP-Z", connected := false, path := none
        , usb_detected := false, mode := none }) :=
  broadcast_delivers_to_every_open_subscriber
    [{ closed := true, queue := [] }, { closed := false, queue := [] }]
    "device_status"
    { device := "opz", device_name := "OP-Z", connected := false, path := none
    , usb_detected := false, mode := none }

/-! ## Claim theorems: the status invariant (C1) -/

theorem update_preserves_fwd_invariant (st : MonState) (d : Dev) (c : Bool)
    (p : Option String) (u : Bool) (m : Option String)
    (hargs : opt_str_truthy p = true → (m = some "storage" ∨ m = some "upgrade"))
    (hinv : mon_invariant_fwd st) :
    mon_invariant_fwd (update_device_status st d c p u m).1 := by
  intro d'
  rw [update_statuses_eq]
  by_cases hd : d = d'
  · subst hd
    rw [StatusMap.get_set_same]
    exact hargs
  · rw [StatusMap.get_set_other st.statuses d d' _ hd]
    exact hinv d'

/-- C1 (amended): every update performed by the monitor — initial scan,
connect callback, poll task, disconnect callback — preserves the
invariant in the direction the code maintains: a non-empty `path` implies
mode `storage` or `upgrade`.  (The converse direction does not hold, see
the counterexample: the connect callback can store mode `"storage"` with
no path while polling for the mount.) -/
theorem mon_step_preserves_path_mode_invariant (plat : HostOS) (fs : FS)
    (st st' : MonState) (hstep : MonStep plat fs st st')
    (hinv : mon_invariant_fwd st) : mon_invariant_fwd st' := by
  cases hstep with
  | scan_found d p m hfind =>
    exact update_preserves_fwd_invariant st d true (some p) true (some m)
      (fun _ => (find_device_mount_some plat fs d p (some m) hfind).1) hinv
  | scan_usb_other d =>
    exact update_preserves_fwd_invariant st d true none true (some "other")
      (fun h => absurd h (by decide)) hinv
  | scan_usb_standby =>
    exact update_preserves_fwd_invariant st .opz true none true (some "standby")
      (fun h => absurd h (by decide)) hinv
  | connect_found d p m hfind =>
    exact update_preserves_fwd_invariant st d true (some p) true (some m)
      (fun _ => (find_device_mount_some plat fs d p (some m) hfind).1) hinv
  | connect_standby hfind =>
    exact update_preserves_fwd_invariant st .opz true none true (some "standby")
      (fun h => absurd h (by decide)) hinv
  | connect_no_mount_op1 hfind =>
    exact update_preserves_fwd_invariant st .op1 true none true (some "storage")
      (fun h => absurd h (by decide)) hinv
  | connect_other d =>
    exact update_preserves_fwd_invariant st d true none true (some "other")
      (fun h => absurd h (by decide)) hinv
  | disconnect d =>
    exact update_preserves_fwd_invariant st d false none false none
      (fun h => absurd h (by decide)) hinv
  | poll_found d p m hconn hpath hfind =>
    exact update_preserves_fwd_invariant st d true (some p) true m
      (fun _ => (find_device_mount_some plat fs d p m hfind).1) hinv

/-- A file system with nothing mounted. -/
def fs_nothing : FS :=
  { pathExists := fun _ => false, isDir := fun _ => false, volumes := [] }

/-- The monitor's initial state: both devices disconnected, no SSE
subscribers, empty configuration store. -/
def st_initial : MonState :=
  { statuses := { opz := status_disconnected, op1 := status_disconnected }
  , clients := []
  , config := [] }

/-- C1 witness: a disconnect step from the initial state, which satisfies
the (amended) invariant before and after. -/
theorem mon_step_preserves_path_mode_invariant_witness :
    mon_invariant_fwd
      (update_device_status st_initial .opz false none false none).1 :=
  mon_step_preserves_path_mode_invariant .darwin fs_nothing st_initial
    (update_device_status st_initial .opz false none false none).1
    (MonStep.disconnect st_initial .opz) (by decide)

/-- C1 counterexample: the connect callback's OP-1 branch with USB
detected but no mount found yet performs a monitor update that stores
mode `"storage"` with `path = None`, breaking the claimed two-way
invariant (`path` non-empty iff mode `storage`/`upgrade`) even though it
held before the step. -/
theorem mon_step_invariant_iff_counterexample :
    MonStep .darwin fs_nothing st_initial
      (update_device_status st_initial .op1 true none true (some "storage")).1 ∧
    mon_invariant_iff st_initial ∧
    ¬ mon_invariant_iff
      (update_device_status st_initial .op1 true none true (some "storage")).1 :=
  ⟨MonStep.connect_no_mount_op1 st_initial rfl, by decide, by decide⟩

/-! ## Claim theorems: the poll task (C6) -/

theorem poll_step_stopped_absorbing (plat : HostOS) (fs : FS) (d : Dev)
    (max_attempts : Nat) (st : MonState) :
    poll_step plat fs d max_attempts (st, .stopped) = (st, .stopped) := rfl

theorem poll_iterate_stopped (plat : HostOS) (fs : FS) (d : Dev)
    (max_attempts : Nat) (st : MonState) (n : Nat) :
    (poll_step plat fs d max_attempts)^[n] (st, .stopped) = (st, .stopped) := by
  induction n with
  | zero => rfl
  | succ k ih =>
    rw [Function.iterate_succ_apply, poll_step_stopped_absorbing]
    exact ih

/-- C6: once a disconnect for the device kind has been applied to the
registry while the poll task is sleeping mid-interval, the task performs
no further status change and stops: at the end of the sleep its loop
re-checks the shared status, sees `connected = False`, and returns before
calling `find_device_mount` or `update_device_status` again — the
monitor state stays exactly as the disconnect left it, at every later
instant, and the task is stopped from the second step on. -/
theorem poll_task_stops_after_disconnect (plat : HostOS) (fs : FS) (d : Dev)
    (max_attempts : Nat) (st : MonState) (k : Nat)
    (hdisc : (st.statuses.get d).connected = false) :
    ∀ n : Nat,
      ((poll_step plat fs d max_attempts)^[n] (st, .sleeping k)).1 = st ∧
      (2 ≤ n →
        ((poll_step plat fs d max_attempts)^[n] (st, .sleeping k)).2 = .stopped) := by
  have hcheck : ∀ j : Nat,
      poll_step plat fs d max_attempts (st, .checking j) = (st, .stopped) := by
    intro j
    simp only [poll_step]
    rw [if_pos (Or.inl hdisc)]
  have h2 : (poll_step plat fs d max_attempts)^[2] (st, .sleeping k) = (st, .stopped) := by
    rw [Function.iterate_succ_apply, Function.iterate_succ_apply, Function.iterate_zero_apply]
    by_cases hlt : k + 1 < max_attempts
    · have hinner : poll_step plat fs d max_attempts (st, .sleeping k) =
          (st, .checking (k + 1)) := by
        simp only [poll_step]
        rw [if_pos hlt]
      rw [hinner]
      exact hcheck (k + 1)
    · have hinner : poll_step plat fs d max_attempts (st, .sleeping k) = (st, .stopped) := by
        simp only [poll_step]
        rw [if_neg hlt]
      rw [hinner]
      exact poll_step_stopped_absorbing plat fs d max_attempts st
  intro n
  match n with
  | 0 => exact ⟨rfl, by omega⟩
  | 1 =>
    constructor
    · rw [Function.iterate_one]
      simp only [poll_step]
      split <;> rfl
    · omega
  | (m + 2) =>
    have hsplit : (poll_step plat fs d max_attempts)^[m + 2] (st, .sleeping k) =
        (poll_step plat fs d max_attempts)^[m]
          ((poll_step plat fs d max_attempts)^[2] (st, .sleeping k)) := by
      rw [← Function.iterate_add_apply]
    rw [hsplit, h2, poll_iterate_stopped]
    exact ⟨rfl, fun _ => rfl⟩

/-- C6 witness: OP-1 polling, disconnect already applied, sleeping at
attempt 0; three steps later the state is untouched and the task stopped. -/
theorem poll_task_stops_after_disconnect_witness :
    ((poll_step .darwin fs_nothing .op1 30)^[3] (st_initial, .sleeping 0)).1 = st_initial ∧
    ((poll_step .darwin fs_nothing .op1 30)^[3] (st_initial, .sleeping 0)).2 = .stopped :=
  ⟨(poll_task_stops_after_disconnect .darwin fs_nothing .op1 30 st_initial 0 rfl 3).1,
   (poll_task_stops_after_disconnect .darwin fs_nothing .op1 30 st_initial 0 rfl 3).2
     (by omega)⟩
